import Mathlib

/-!
Shallow embedding of the lovcode backend core (Rust, `src-tauri/src`):
the workspace store (`workspace_store.rs`) and the PTY session registry
(`pty_manager.rs`), with theorems checking the natural-language
specification against this embedding.

Modelling conventions:
* Rust `Vec` becomes `List`; `HashMap` becomes an association list with
  insert-replaces and remove-erases semantics; `u32`/`u64` become `Nat`.
* Every workspace-store operation in the source performs
  load → mutate → save; here an operation takes the loaded document and
  returns the document as persisted afterwards (unchanged on every error
  path, since the source never calls `save_workspace` before erroring)
  together with its `Result` value, as `WorkspaceData × Except String α`.
* `uuid::Uuid::new_v4()` and `SystemTime::now()` are nondeterministic
  inputs; they are passed as explicit parameters (`newId`, `now`).
* File-system success is assumed (a failing `save` is out of scope of the
  claims treated here).
-/

namespace Lovcode

/-- Mirrors Rust `iter().position(p)` followed by `remove(index)`: the first
element satisfying `p` together with the list without it. -/
def extractFirst (p : α → Bool) : List α → Option (α × List α)
  | [] => none
  | x :: xs =>
    if p x then some (x, xs)
    else (extractFirst p xs).map (fun r => (r.1, x :: r.2))

/-- Mirrors Rust `iter_mut().find(p)` followed by a mutation of the found
element: the list with the first element satisfying `p` replaced by its
image under `f`; `none` when no element satisfies `p`. -/
def modifyFirst (p : α → Bool) (f : α → α) : List α → Option (List α)
  | [] => none
  | x :: xs =>
    if p x then some (f x :: xs)
    else (modifyFirst p f xs).map (fun ys => x :: ys)

/-- Mirrors Rust `iter_mut().find(p)` followed by running a fallible
operation `f` on the found element in place: `none` when no element
satisfies `p`, otherwise `f`'s error, or the list with the element
replaced plus `f`'s extra result. -/
def applyFirst (p : α → Bool) (f : α → Except String (α × β)) :
    List α → Option (Except String (List α × β))
  | [] => none
  | x :: xs =>
    if p x then
      some (match f x with
            | .ok (x2, b) => .ok (x2 :: xs, b)
            | .error e => .error e)
    else
      (applyFirst p f xs).map (fun r => r.map (fun s => (x :: s.1, s.2)))

/-! ## Workspace data model (`workspace_store.rs`, lines 19–119) -/

/-- `FeatureStatus` (kebab-case serialized). -/
inductive FeatureStatus
  | pending
  | running
  | completed
  | needsReview
deriving DecidableEq

/-- `SessionState`: a terminal tab inside a panel. -/
structure SessionState where
  id : String
  pty_id : String
  title : String
  command : Option String
deriving DecidableEq

/-- `PanelState`: container for session tabs. -/
structure PanelState where
  id : String
  sessions : List SessionState
  active_session_id : String
  is_shared : Bool
  cwd : String
deriving DecidableEq

/-- `LayoutNode`: internally tagged union, a panel leaf or a binary split. -/
inductive LayoutNode
  | panel (panelId : String)
  | split (direction : String) (first second : LayoutNode)
deriving DecidableEq

/-- `Feature` within a project. -/
structure Feature where
  id : String
  seq : Nat
  name : String
  description : Option String
  status : FeatureStatus
  pinned : Option Bool
  archived : Option Bool
  archived_note : Option String
  git_branch : Option String
  chat_session_id : Option String
  panels : List PanelState
  layout_direction : Option String
  layout : Option LayoutNode
  created_at : Nat
deriving DecidableEq

/-- `WorkspaceProject`. -/
structure WorkspaceProject where
  id : String
  name : String
  path : String
  archived : Option Bool
  features : List Feature
  shared_panels : List PanelState
  active_feature_id : Option String
  feature_counter : Option Nat
  created_at : Nat
deriving DecidableEq

/-- `WorkspaceData`: the complete persisted document. -/
structure WorkspaceData where
  projects : List WorkspaceProject
  active_project_id : Option String
deriving DecidableEq

/-! ## Workspace store operations (`workspace_store.rs`, lines 151–461)

Each operation returns `(persisted document afterwards, Result)`. -/

/-- Lift a fallible in-place mutation of the first project matching `pid`
(the `iter_mut().find(...).ok_or_else(|| "Project not found")?` prologue
shared by the project-scoped operations). -/
def overProject (pid : String) (f : WorkspaceProject → Except String (WorkspaceProject × β))
    (d : WorkspaceData) : WorkspaceData × Except String β :=
  match applyFirst (fun pr => pr.id == pid) f d.projects with
  | none => (d, .error s!"Project '{pid}' not found")
  | some (.error e) => (d, .error e)
  | some (.ok (ps, b)) => ({ d with projects := ps }, .ok b)

/-- Model of Rust `Path::new(&path).file_name()` for Unix-style paths:
the final normal component (`.` and empty components ignored), `none`
for a root path or one ending in `..`. -/
def fileName (path : String) : Option String :=
  match ((path.splitOn "/").filter (fun c => c != "" && c != ".")).getLast? with
  | none => none
  | some c => if c == ".." then none else some c

/-- `add_project` (lines 152–192). `newId` stands for the fresh UUID and
`now` for the current Unix time. -/
def add_project (newId : String) (now : Nat) (path : String) (d : WorkspaceData) :
    WorkspaceData × Except String WorkspaceProject :=
  if d.projects.any (fun p => p.path == path) then
    (d, .error s!"Project '{path}' already exists")
  else
    let name := (fileName path).getD "Unknown"
    let project : WorkspaceProject :=
      { id := newId, name := name, path := path, archived := none, features := [],
        shared_panels := [], active_feature_id := none, feature_counter := none,
        created_at := now }
    let projects := d.projects ++ [project]
    let active := if d.active_project_id.isNone then some project.id else d.active_project_id
    (⟨projects, active⟩, .ok project)

/-- `remove_project` (lines 195–214). -/
def remove_project (id : String) (d : WorkspaceData) : WorkspaceData × Except String Unit :=
  match extractFirst (fun p => p.id == id) d.projects with
  | none => (d, .error s!"Project '{id}' not found")
  | some (_, ps) =>
    let active :=
      if d.active_project_id == some id then (ps.head?).map (fun p => p.id)
      else d.active_project_id
    (⟨ps, active⟩, .ok ())

/-- `set_active_project` (lines 217–228). -/
def set_active_project (id : String) (d : WorkspaceData) : WorkspaceData × Except String Unit :=
  if !(d.projects.any (fun p => p.id == id)) then
    (d, .error s!"Project '{id}' not found")
  else
    ({ d with active_project_id := some id }, .ok ())

/-- Body of `create_feature` on the found project (lines 240–265). -/
def create_featureP (newId : String) (now : Nat) (name : String) (description : Option String)
    (proj : WorkspaceProject) : Except String (WorkspaceProject × Feature) :=
  let feature : Feature :=
    { id := newId, seq := 0, name := name, description := description,
      status := .pending, pinned := none, archived := none, archived_note := none,
      git_branch := none, chat_session_id := none, panels := [],
      layout_direction := none, layout := none, created_at := now }
  let proj := { proj with features := proj.features ++ [feature] }
  let proj :=
    if proj.active_feature_id.isNone then { proj with active_feature_id := some feature.id }
    else proj
  .ok (proj, feature)

/-- `create_feature` (lines 231–270). -/
def create_feature (newId : String) (now : Nat) (pid : String) (name : String)
    (description : Option String) (d : WorkspaceData) : WorkspaceData × Except String Feature :=
  overProject pid (create_featureP newId now name description) d

/-- The loop of `rename_feature` over all projects (lines 276–282): the
first project containing the feature gets it renamed. -/
def renameInProjects (fid : String) (name : String) :
    List WorkspaceProject → Option (List WorkspaceProject)
  | [] => none
  | p :: ps =>
    match modifyFirst (fun f => f.id == fid) (fun f => { f with name := name }) p.features with
    | some fs => some ({ p with features := fs } :: ps)
    | none => (renameInProjects fid name ps).map (fun qs => p :: qs)

/-- `rename_feature` (lines 273–285). -/
def rename_feature (fid : String) (name : String) (d : WorkspaceData) :
    WorkspaceData × Except String Unit :=
  match renameInProjects fid name d.projects with
  | some ps => ({ d with projects := ps }, .ok ())
  | none => (d, .error s!"Feature '{fid}' not found")

/-- Body of `update_feature_status` on the found project (lines 297–304). -/
def update_feature_statusP (fid : String) (status : FeatureStatus) (proj : WorkspaceProject) :
    Except String (WorkspaceProject × Unit) :=
  match modifyFirst (fun f => f.id == fid) (fun f => { f with status := status }) proj.features with
  | none => .error s!"Feature '{fid}' not found"
  | some fs => .ok ({ proj with features := fs }, ())

/-- `update_feature_status` (lines 288–307). -/
def update_feature_status (pid : String) (fid : String) (status : FeatureStatus)
    (d : WorkspaceData) : WorkspaceData × Except String Unit :=
  overProject pid (update_feature_statusP fid status) d

/-- Body of `delete_feature` on the found project (lines 319–330): remove
the feature; if it was active, re-target `active_feature_id` to the first
remaining feature (or none). -/
def delete_featureP (fid : String) (proj : WorkspaceProject) :
    Except String (WorkspaceProject × Unit) :=
  match extractFirst (fun f => f.id == fid) proj.features with
  | none => .error s!"Feature '{fid}' not found"
  | some (_, fs) =>
    let active :=
      if proj.active_feature_id == some fid then (fs.head?).map (fun f => f.id)
      else proj.active_feature_id
    .ok ({ proj with features := fs, active_feature_id := active }, ())

/-- `delete_feature` (lines 310–335). -/
def delete_feature (pid : String) (fid : String) (d : WorkspaceData) :
    WorkspaceData × Except String Unit :=
  overProject pid (delete_featureP fid) d

/-- Body of `set_active_feature` on the found project (lines 347–351). -/
def set_active_featureP (fid : String) (proj : WorkspaceProject) :
    Except String (WorkspaceProject × Unit) :=
  if !(proj.features.any (fun f => f.id == fid)) then
    .error s!"Feature '{fid}' not found"
  else
    .ok ({ proj with active_feature_id := some fid }, ())

/-- `set_active_feature` (lines 338–355). -/
def set_active_feature (pid : String) (fid : String) (d : WorkspaceData) :
    WorkspaceData × Except String Unit :=
  overProject pid (set_active_featureP fid) d

/-- Body of `add_panel_to_feature` on the found project (lines 367–373). -/
def add_panel_to_featureP (fid : String) (panel : PanelState) (proj : WorkspaceProject) :
    Except String (WorkspaceProject × Unit) :=
  match modifyFirst (fun f => f.id == fid) (fun f => { f with panels := f.panels ++ [panel] })
      proj.features with
  | none => .error s!"Feature '{fid}' not found"
  | some fs => .ok ({ proj with features := fs }, ())

/-- `add_panel_to_feature` (lines 358–377). -/
def add_panel_to_feature (pid : String) (fid : String) (panel : PanelState)
    (d : WorkspaceData) : WorkspaceData × Except String Unit :=
  overProject pid (add_panel_to_featureP fid panel) d

/-- Body of `remove_panel_from_feature` on the found project
(lines 389–395): `retain(|p| p.id != panel_id)` on the found feature. -/
def remove_panel_from_featureP (fid : String) (panel_id : String) (proj : WorkspaceProject) :
    Except String (WorkspaceProject × Unit) :=
  match modifyFirst (fun f => f.id == fid)
      (fun f => { f with panels := f.panels.filter (fun p => !(p.id == panel_id)) })
      proj.features with
  | none => .error s!"Feature '{fid}' not found"
  | some fs => .ok ({ proj with features := fs }, ())

/-- `remove_panel_from_feature` (lines 380–399). -/
def remove_panel_from_feature (pid : String) (fid : String) (panel_id : String)
    (d : WorkspaceData) : WorkspaceData × Except String Unit :=
  overProject pid (remove_panel_from_featureP fid panel_id) d

/-- The loop of `toggle_panel_shared` over the features (lines 428–438):
the first feature whose panel list holds `panel_id` loses that panel,
which is returned with `is_shared` set. -/
def togglePanelInFeatures (panel_id : String) :
    List Feature → Option (List Feature × PanelState)
  | [] => none
  | f :: fs =>
    match extractFirst (fun p => p.id == panel_id) f.panels with
    | some (panel, rest) =>
      some ({ f with panels := rest } :: fs, { panel with is_shared := true })
    | none => (togglePanelInFeatures panel_id fs).map (fun r => (f :: r.1, r.2))

/-- Body of `toggle_panel_shared` on the found project (lines 411–440):
shared pool searched first — a hit moves the panel into the *active*
feature's panel list (if that feature exists) and clears `is_shared`;
otherwise the first feature holding the panel loses it to the shared
pool with `is_shared` set; otherwise the panel is not found. -/
def toggle_panel_sharedP (panel_id : String) (proj : WorkspaceProject) :
    Except String (WorkspaceProject × Bool) :=
  match extractFirst (fun p => p.id == panel_id) proj.shared_panels with
  | some (panel, rest) =>
    let panel := { panel with is_shared := false }
    let features :=
      match proj.active_feature_id with
      | some fid =>
        (modifyFirst (fun f => f.id == fid)
          (fun f => { f with panels := f.panels ++ [panel] }) proj.features).getD proj.features
      | none => proj.features
    .ok ({ proj with shared_panels := rest, features := features }, false)
  | none =>
    match togglePanelInFeatures panel_id proj.features with
    | some (fs, panel) =>
      .ok ({ proj with features := fs, shared_panels := proj.shared_panels ++ [panel] }, true)
    | none => .error s!"Panel '{panel_id}' not found"

/-- `toggle_panel_shared` (lines 402–441). -/
def toggle_panel_shared (pid : String) (panel_id : String) (d : WorkspaceData) :
    WorkspaceData × Except String Bool :=
  overProject pid (toggle_panel_sharedP panel_id) d

/-- Total number of panels a project holds across all containers
(every feature's panel list plus the shared pool). -/
def projPanelCount (proj : WorkspaceProject) : Nat :=
  (proj.features.map (fun f => f.panels.length)).sum + proj.shared_panels.length

/-- Number of panels with a given id across all of a project's containers. -/
def projPanelIdCount (panel_id : String) (proj : WorkspaceProject) : Nat :=
  (proj.features.map (fun f => (f.panels.filter (fun p => p.id == panel_id)).length)).sum
    + (proj.shared_panels.filter (fun p => p.id == panel_id)).length

/-! ## PTY session registry (`pty_manager.rs`)

The three global `HashMap`s are modelled as association lists; the boxed
writer and master handles carry no state relevant to the claims and are
modelled as `Unit`; a `SessionControl` is its atomic running flag, a
`Bool`. `HashMap::insert` replaces an existing entry and
`HashMap::remove` erases it. -/

/-- `HashMap` lookup. -/
def alLookup (k : String) (m : List (String × α)) : Option α :=
  (m.find? (fun p => p.1 == k)).map (fun p => p.2)

/-- `HashMap::insert` (replaces any existing entry for the key). -/
def alInsert (k : String) (v : α) (m : List (String × α)) : List (String × α) :=
  (k, v) :: m.filter (fun p => !(p.1 == k))

/-- `HashMap::remove`. -/
def alRemove (k : String) (m : List (String × α)) : List (String × α) :=
  m.filter (fun p => !(p.1 == k))

/-- `HashMap` update of an existing entry in place (used for
`ctrl.running.store(false)`, which writes through the stored flag). -/
def alSet (k : String) (v : α) (m : List (String × α)) : List (String × α) :=
  m.map (fun p => if p.1 == k then (p.1, v) else p)

/-- The registry's three global maps: `PTY_SESSIONS` (writer handles),
`PTY_MASTERS` (resizable masters), `PTY_CONTROLS` (running flags). -/
structure RegState where
  sessions : List (String × Unit)
  masters : List (String × Unit)
  controls : List (String × Bool)
deriving DecidableEq

/-- The empty registry. -/
def RegState.empty : RegState := ⟨[], [], []⟩

/-- Events emitted to the UI shell: `pty-data { id, data }` and
`pty-exit { id }` (`pty_manager.rs`, lines 22–33).  Bytes are `Nat`s. -/
inductive PtyEvent
  | data (id : String) (bytes : List Nat)
  | exit (id : String)
deriving DecidableEq

/-- Fallible environment outcomes of `create_session` (lines 56–145), in
the order the source checks them: the global `APP_HANDLE` initialized,
`openpty`, `spawn_command`, `try_clone_reader`, `take_writer`. -/
structure CreateEnv where
  appInit : Bool
  openptyOk : Bool
  spawnOk : Bool
  readerOk : Bool
  writerOk : Bool
deriving DecidableEq

/-- `create_session` (lines 56–145): after the five fallible steps, the
writer, master and control (running flag `true`) are registered under
`id` and the reader thread is spawned. `cwd`, `shell` and `command` shape
the spawned process only, not the registry state. -/
def create_session (env : CreateEnv) (id : String) (_cwd : String) (_shell : Option String)
    (_command : Option String) (st : RegState) : RegState × Except String Unit :=
  if !env.appInit then (st, .error "PTY manager not initialized")
  else if !env.openptyOk then (st, .error "Failed to open PTY")
  else if !env.spawnOk then (st, .error "Failed to spawn shell")
  else if !env.readerOk then (st, .error "Failed to clone reader")
  else if !env.writerOk then (st, .error "Failed to take writer")
  else
    ({ sessions := alInsert id () st.sessions,
       masters := alInsert id () st.masters,
       controls := alInsert id true st.controls }, .ok ())

/-- `cleanup_session` (lines 183–193): remove the session's entries from
all three maps. -/
def cleanup_session (id : String) (st : RegState) : RegState :=
  { sessions := alRemove id st.sessions,
    controls := alRemove id st.controls,
    masters := alRemove id st.masters }

/-- `kill_session` (lines 239–251): store `false` through the running
flag if a control exists, then run the same cleanup as the reader
thread's exit path; always returns ok, and contains no event emission
(`emitted` lists the events the function emits — there are none). -/
def kill_session (id : String) (st : RegState) :
    RegState × List PtyEvent × Except String Unit :=
  let controls :=
    match alLookup id st.controls with
    | some _ => alSet id false st.controls
    | none => st.controls
  (cleanup_session id { st with controls := controls }, [], .ok ())

/-- `session_exists` (lines 262–267): membership in the IO map. -/
def session_exists (id : String) (st : RegState) : Bool :=
  (alLookup id st.sessions).isSome

/-- One observed iteration of the reader loop (lines 156–176): the value
of the running flag at the `while` check, what the blocking `read`
returns if the body is entered (`ok bytes`, where `[]` is EOF, or an
error), and the value of the flag at the re-check inside the error
branch.  Flag values are trace inputs because `kill_session` may flip
the shared flag at any moment between the loop's own accesses. -/
structure ReadIter where
  flagAtCheck : Bool
  outcome : Except Unit (List Nat)
  flagAtErr : Bool

/-- The events `read_loop` (lines 148–180) emits along a trace of
iterations: on EOF (`Ok(0)`) emit exit and break; on data emit a data
event and continue; on a read error emit exit only if the flag is still
set, and break either way; a cleared flag at the `while` check exits
without emitting.  An exhausted trace means the loop is still blocked in
`read`, having emitted only data so far. -/
def read_loop (id : String) : List ReadIter → List PtyEvent
  | [] => []
  | it :: rest =>
    if it.flagAtCheck then
      match it.outcome with
      | .ok [] => [.exit id]
      | .ok bytes => .data id bytes :: read_loop id rest
      | .error () => if it.flagAtErr then [.exit id] else []
    else []

/-- Whether a trace reaches a termination observation while the loop is
still running: EOF at an entered iteration, or a read error with the
flag still set at the error branch's re-check. -/
def reachesTermination : List ReadIter → Bool
  | [] => false
  | it :: rest =>
    it.flagAtCheck &&
      (match it.outcome with
       | .ok [] => true
       | .ok _ => reachesTermination rest
       | .error () => it.flagAtErr)

/-- Number of exit events in an emitted event list. -/
def exitCount (id : String) (evs : List PtyEvent) : Nat :=
  (evs.filter (fun e => e == .exit id)).length

/-! ## JSON serialization (`save_workspace` / `load_workspace`, lines 122–149)

`save_workspace` runs `serde_json::to_string_pretty` and `load_workspace`
runs `serde_json::from_str` on the derived `Serialize`/`Deserialize`
implementations.  The JSON text layer is modelled by a JSON value tree;
the encoders below follow the derive attributes on the structs
(declaration-order fields, `#[serde(default)]`, kebab-case statuses, the
internally tagged lowercase `LayoutNode`), and the decoders follow the
derived deserializers (field lookup by name, defaults for missing
`#[serde(default)]` and `Option` fields).  `fromJsonLayoutNode` matches
the tagged object in the field order the serializer produces. -/

/-- JSON value trees (numbers restricted to the naturals the model uses). -/
inductive Json
  | null
  | bool (b : Bool)
  | num (n : Nat)
  | str (s : String)
  | arr (elems : List Json)
  | obj (fields : List (String × Json))

/-- Field lookup in a JSON object. -/
def lookupField (k : String) (fs : List (String × Json)) : Option Json :=
  (fs.find? (fun p => p.1 == k)).map (fun p => p.2)

/-- `FeatureStatus` serializes kebab-case (`#[serde(rename_all = "kebab-case")]`). -/
def toJsonStatus : FeatureStatus → Json
  | .pending => .str "pending"
  | .running => .str "running"
  | .completed => .str "completed"
  | .needsReview => .str "needs-review"

/-- `Option<String>` serializes as `null` or the string. -/
def toJsonOptStr : Option String → Json
  | none => .null
  | some s => .str s

/-- `Option<bool>` serializes as `null` or the boolean. -/
def toJsonOptBool : Option Bool → Json
  | none => .null
  | some b => .bool b

/-- `Option<u32>` serializes as `null` or the number. -/
def toJsonOptNat : Option Nat → Json
  | none => .null
  | some n => .num n

/-- `SessionState` serializer (derived, declaration-order fields). -/
def toJsonSession (s : SessionState) : Json :=
  .obj [("id", .str s.id), ("pty_id", .str s.pty_id), ("title", .str s.title),
        ("command", toJsonOptStr s.command)]

/-- `PanelState` serializer. -/
def toJsonPanel (p : PanelState) : Json :=
  .obj [("id", .str p.id), ("sessions", .arr (p.sessions.map toJsonSession)),
        ("active_session_id", .str p.active_session_id),
        ("is_shared", .bool p.is_shared), ("cwd", .str p.cwd)]

/-- `LayoutNode` serializer (`#[serde(tag = "type", rename_all = "lowercase")]`). -/
def toJsonLayoutNode : LayoutNode → Json
  | .panel pid => .obj [("type", .str "panel"), ("panelId", .str pid)]
  | .split dir f s =>
    .obj [("type", .str "split"), ("direction", .str dir),
          ("first", toJsonLayoutNode f), ("second", toJsonLayoutNode s)]

/-- `Option<LayoutNode>` serializer. -/
def toJsonOptLayout : Option LayoutNode → Json
  | none => .null
  | some n => toJsonLayoutNode n

/-- `Feature` serializer. -/
def toJsonFeature (f : Feature) : Json :=
  .obj [("id", .str f.id), ("seq", .num f.seq), ("name", .str f.name),
        ("description", toJsonOptStr f.description), ("status", toJsonStatus f.status),
        ("pinned", toJsonOptBool f.pinned), ("archived", toJsonOptBool f.archived),
        ("archived_note", toJsonOptStr f.archived_note),
        ("git_branch", toJsonOptStr f.git_branch),
        ("chat_session_id", toJsonOptStr f.chat_session_id),
        ("panels", .arr (f.panels.map toJsonPanel)),
        ("layout_direction", toJsonOptStr f.layout_direction),
        ("layout", toJsonOptLayout f.layout), ("created_at", .num f.created_at)]

/-- `WorkspaceProject` serializer. -/
def toJsonProject (p : WorkspaceProject) : Json :=
  .obj [("id", .str p.id), ("name", .str p.name), ("path", .str p.path),
        ("archived", toJsonOptBool p.archived),
        ("features", .arr (p.features.map toJsonFeature)),
        ("shared_panels", .arr (p.shared_panels.map toJsonPanel)),
        ("active_feature_id", toJsonOptStr p.active_feature_id),
        ("feature_counter", toJsonOptNat p.feature_counter),
        ("created_at", .num p.created_at)]

/-- `WorkspaceData` serializer: the document `save_workspace` writes. -/
def toJsonWorkspace (d : WorkspaceData) : Json :=
  .obj [("projects", .arr (d.projects.map toJsonProject)),
        ("active_project_id", toJsonOptStr d.active_project_id)]

/-- Required string field. -/
def fromJsonStr : Option Json → Option String
  | some (.str s) => some s
  | _ => none

/-- Required number field. -/
def fromJsonNat : Option Json → Option Nat
  | some (.num n) => some n
  | _ => none

/-- Required boolean field. -/
def fromJsonBool : Option Json → Option Bool
  | some (.bool b) => some b
  | _ => none

/-- `#[serde(default)]` number field: missing means `0`. -/
def fromJsonNatD : Option Json → Option Nat
  | none => some 0
  | some (.num n) => some n
  | _ => none

/-- `#[serde(default)]` string field: missing means `""`. -/
def fromJsonStrD : Option Json → Option String
  | none => some ""
  | some (.str s) => some s
  | _ => none

/-- `Option<String>` field: missing or `null` means `None`. -/
def fromJsonOptStr : Option Json → Option (Option String)
  | none => some none
  | some .null => some none
  | some (.str s) => some (some s)
  | _ => none

/-- `Option<bool>` field. -/
def fromJsonOptBool : Option Json → Option (Option Bool)
  | none => some none
  | some .null => some none
  | some (.bool b) => some (some b)
  | _ => none

/-- `Option<u32>` field. -/
def fromJsonOptNat : Option Json → Option (Option Nat)
  | none => some none
  | some .null => some none
  | some (.num n) => some (some n)
  | _ => none

/-- `FeatureStatus` deserializer (kebab-case names). -/
def fromJsonStatus : Option Json → Option FeatureStatus
  | some (.str "pending") => some .pending
  | some (.str "running") => some .running
  | some (.str "completed") => some .completed
  | some (.str "needs-review") => some .needsReview
  | _ => none

/-- Required list field decoded elementwise. -/
def fromJsonList (dec : Json → Option α) : Option Json → Option (List α)
  | some (.arr xs) => xs.mapM dec
  | _ => none

/-- `#[serde(default)]` list field: missing means `[]`. -/
def fromJsonListD (dec : Json → Option α) : Option Json → Option (List α)
  | none => some []
  | some (.arr xs) => xs.mapM dec
  | _ => none

/-- `SessionState` deserializer. -/
def fromJsonSession : Json → Option SessionState
  | .obj fs => do
    let id ← fromJsonStr (lookupField "id" fs)
    let pty ← fromJsonStr (lookupField "pty_id" fs)
    let title ← fromJsonStr (lookupField "title" fs)
    let command ← fromJsonOptStr (lookupField "command" fs)
    pure ⟨id, pty, title, command⟩
  | _ => none

/-- `PanelState` deserializer. -/
def fromJsonPanel : Json → Option PanelState
  | .obj fs => do
    let id ← fromJsonStr (lookupField "id" fs)
    let sessions ← fromJsonListD fromJsonSession (lookupField "sessions" fs)
    let asid ← fromJsonStrD (lookupField "active_session_id" fs)
    let shared ← fromJsonBool (lookupField "is_shared" fs)
    let cwd ← fromJsonStr (lookupField "cwd" fs)
    pure ⟨id, sessions, asid, shared, cwd⟩
  | _ => none

/-- `LayoutNode` deserializer, matching the internally tagged object in
the field order the serializer writes. -/
def fromJsonLayoutNode : Json → Option LayoutNode
  | .obj [("type", .str "panel"), ("panelId", .str pid)] => some (.panel pid)
  | .obj [("type", .str "split"), ("direction", .str dir), ("first", jf), ("second", js)] =>
    match fromJsonLayoutNode jf, fromJsonLayoutNode js with
    | some f, some s => some (.split dir f s)
    | _, _ => none
  | _ => none

/-- `Option<LayoutNode>` field. -/
def fromJsonOptLayout : Option Json → Option (Option LayoutNode)
  | none => some none
  | some .null => some none
  | some j => (fromJsonLayoutNode j).map some

/-- `Feature` deserializer. -/
def fromJsonFeature : Json → Option Feature
  | .obj fs => do
    let id ← fromJsonStr (lookupField "id" fs)
    let seq ← fromJsonNatD (lookupField "seq" fs)
    let name ← fromJsonStr (lookupField "name" fs)
    let description ← fromJsonOptStr (lookupField "description" fs)
    let status ← fromJsonStatus (lookupField "status" fs)
    let pinned ← fromJsonOptBool (lookupField "pinned" fs)
    let archived ← fromJsonOptBool (lookupField "archived" fs)
    let note ← fromJsonOptStr (lookupField "archived_note" fs)
    let branch ← fromJsonOptStr (lookupField "git_branch" fs)
    let chat ← fromJsonOptStr (lookupField "chat_session_id" fs)
    let panels ← fromJsonList fromJsonPanel (lookupField "panels" fs)
    let ldir ← fromJsonOptStr (lookupField "layout_direction" fs)
    let layout ← fromJsonOptLayout (lookupField "layout" fs)
    let created ← fromJsonNat (lookupField "created_at" fs)
    pure ⟨id, seq, name, description, status, pinned, archived, note, branch, chat,
          panels, ldir, layout, created⟩
  | _ => none

/-- `WorkspaceProject` deserializer. -/
def fromJsonProject : Json → Option WorkspaceProject
  | .obj fs => do
    let id ← fromJsonStr (lookupField "id" fs)
    let name ← fromJsonStr (lookupField "name" fs)
    let path ← fromJsonStr (lookupField "path" fs)
    let archived ← fromJsonOptBool (lookupField "archived" fs)
    let features ← fromJsonList fromJsonFeature (lookupField "features" fs)
    let shared ← fromJsonListD fromJsonPanel (lookupField "shared_panels" fs)
    let afid ← fromJsonOptStr (lookupField "active_feature_id" fs)
    let counter ← fromJsonOptNat (lookupField "feature_counter" fs)
    let created ← fromJsonNat (lookupField "created_at" fs)
    pure ⟨id, name, path, archived, features, shared, afid, counter, created⟩
  | _ => none

/-- `WorkspaceData` deserializer: what `load_workspace` parses. -/
def fromJsonWorkspace : Json → Option WorkspaceData
  | .obj fs => do
    let projects ← fromJsonList fromJsonProject (lookupField "projects" fs)
    let active ← fromJsonOptStr (lookupField "active_project_id" fs)
    pure ⟨projects, active⟩
  | _ => none

/-! ## Concrete fixtures used by witnesses and counterexamples -/

/-- A panel with no sessions, for concrete instances. -/
def mkPanel (id : String) (shared : Bool) : PanelState :=
  ⟨id, [], "", shared, "/w"⟩

/-- A pending feature with the given panels, for concrete instances. -/
def mkFeature (id : String) (panels : List PanelState) : Feature :=
  ⟨id, 0, id, none, .pending, none, none, none, none, none, panels, none, none, 0⟩

/-- A project fixture. -/
def mkProject (id : String) (features : List Feature) (shared : List PanelState)
    (active : Option String) : WorkspaceProject :=
  ⟨id, id, "/" ++ id, none, features, shared, active, none, 0⟩

/-- Workspace with one project whose active feature is `f1` while panel
`p1` sits in the non-active feature `f2`. -/
def c2Doc : WorkspaceData :=
  ⟨[mkProject "pr" [mkFeature "f1" [], mkFeature "f2" [mkPanel "p1" false]] [] (some "f1")],
   some "pr"⟩

/-! ## Association-list lemmas -/

theorem alLookup_alInsert_self (k : String) (v : α) (m : List (String × α)) :
    alLookup k (alInsert k v m) = some v := by
  simp [alLookup, alInsert, List.find?]

theorem alLookup_alRemove_self (k : String) (m : List (String × α)) :
    alLookup k (alRemove k m) = none := by
  induction m with
  | nil => rfl
  | cons p m ih =>
    by_cases h : p.1 = k
    · simpa [alRemove, alLookup, h] using ih
    · simpa [alRemove, alLookup, List.find?, h] using ih

theorem alLookup_cons (k : String) (p : String × α) (m : List (String × α)) :
    alLookup k (p :: m) = if p.1 = k then some p.2 else alLookup k m := by
  by_cases hp : p.1 = k
  · simp only [alLookup]
    rw [List.find?_cons_of_pos m
      (show (fun q : String × α => q.1 == k) p = true from beq_iff_eq.mpr hp), if_pos hp]
    rfl
  · simp only [alLookup]
    rw [List.find?_cons_of_neg m
      (show ¬ (fun q : String × α => q.1 == k) p = true from by simp [hp]), if_neg hp]

theorem alRemove_cons (i : String) (p : String × α) (m : List (String × α)) :
    alRemove i (p :: m) = if p.1 = i then alRemove i m else p :: alRemove i m := by
  by_cases hp : p.1 = i <;> simp [alRemove, hp]

theorem alSet_cons (i : String) (v : α) (p : String × α) (m : List (String × α)) :
    alSet i v (p :: m) = (if p.1 = i then (p.1, v) else p) :: alSet i v m := by
  by_cases hp : p.1 = i <;> simp [alSet, hp]

theorem alLookup_alRemove_ne (k i : String) (m : List (String × α)) (h : k ≠ i) :
    alLookup k (alRemove i m) = alLookup k m := by
  induction m with
  | nil => rfl
  | cons p m ih =>
    rw [alRemove_cons, alLookup_cons]
    by_cases h1 : p.1 = i
    · have h2 : ¬ p.1 = k := fun hk => h (by rw [← hk, h1])
      rw [if_pos h1, if_neg h2, ih]
    · rw [if_neg h1, alLookup_cons, ih]

theorem alLookup_alSet_ne (k i : String) (v : α) (m : List (String × α)) (h : k ≠ i) :
    alLookup k (alSet i v m) = alLookup k m := by
  induction m with
  | nil => rfl
  | cons p m ih =>
    rw [alSet_cons, alLookup_cons, alLookup_cons]
    by_cases h1 : p.1 = i
    · have h2 : ¬ p.1 = k := fun hk => h (by rw [← hk, h1])
      rw [if_pos h1, if_neg h2, if_neg h2, ih]
    · rw [if_neg h1, ih]

theorem alRemove_idem (k : String) (m : List (String × α)) :
    alRemove k (alRemove k m) = alRemove k m := by
  induction m with
  | nil => rfl
  | cons p m ih =>
    by_cases h : p.1 = k
    · simpa [alRemove, h] using ih
    · simpa [alRemove, h] using ih

theorem alRemove_alSet (k : String) (v : α) (m : List (String × α)) :
    alRemove k (alSet k v m) = alRemove k m := by
  induction m with
  | nil => rfl
  | cons p m ih =>
    by_cases h : p.1 = k <;> simp [alSet_cons, alRemove_cons, h, ih]

/-! ## Claim theorems: PTY session registry -/

/-- Claim C5: whenever `create_session` returns ok, `session_exists` holds
for the id immediately after, and all three registry maps (IO sessions,
masters, controls) contain the key. -/
theorem create_session_registers_all_three_maps (env : CreateEnv) (id cwd : String)
    (shell command : Option String) (st : RegState)
    (h : (create_session env id cwd shell command st).2 = .ok ()) :
    session_exists id (create_session env id cwd shell command st).1 = true ∧
    (alLookup id (create_session env id cwd shell command st).1.masters).isSome = true ∧
    (alLookup id (create_session env id cwd shell command st).1.controls).isSome = true := by
  unfold create_session at h ⊢
  split_ifs at h ⊢ <;>
    simp_all [session_exists, alLookup_alInsert_self]

/-- Witness for C5 at a concrete call on the empty registry. -/
theorem create_session_registers_all_three_maps_witness :
    session_exists "s1" (create_session ⟨true, true, true, true, true⟩ "s1" "/w" none none
      RegState.empty).1 = true ∧
    (alLookup "s1" (create_session ⟨true, true, true, true, true⟩ "s1" "/w" none none
      RegState.empty).1.masters).isSome = true ∧
    (alLookup "s1" (create_session ⟨true, true, true, true, true⟩ "s1" "/w" none none
      RegState.empty).1.controls).isSome = true :=
  create_session_registers_all_three_maps ⟨true, true, true, true, true⟩ "s1" "/w" none none
    RegState.empty rfl

/-- Claim C4: `kill_session` returns ok for every id (created or not);
afterwards `session_exists` is false; a second `kill_session` is a no-op
returning ok; and entries of other session ids survive in all three maps. -/
theorem kill_session_ok_idempotent (st : RegState) (id : String) :
    (kill_session id st).2.2 = .ok () ∧
    session_exists id (kill_session id st).1 = false ∧
    (kill_session id (kill_session id st).1).1 = (kill_session id st).1 ∧
    (kill_session id (kill_session id st).1).2.2 = .ok () ∧
    (∀ k, k ≠ id →
      alLookup k (kill_session id st).1.sessions = alLookup k st.sessions ∧
      alLookup k (kill_session id st).1.masters = alLookup k st.masters ∧
      alLookup k (kill_session id st).1.controls = alLookup k st.controls) := by
  refine ⟨rfl, ?_, ?_, rfl, ?_⟩
  · simp [kill_session, cleanup_session, session_exists, alLookup_alRemove_self]
  · cases h : alLookup id st.controls <;>
      simp [kill_session, cleanup_session, h, alLookup_alRemove_self, alRemove_idem]
  · intro k hk
    cases h : alLookup id st.controls <;>
      simp [kill_session, cleanup_session, h, alLookup_alRemove_ne k id _ hk,
        alLookup_alSet_ne k id _ _ hk]

/-- Witness for C4 at a concrete registry holding two sessions. -/
theorem kill_session_ok_idempotent_witness :
    (kill_session "a" ⟨[("a", ()), ("b", ())], [("a", ()), ("b", ())],
        [("a", true), ("b", true)]⟩).2.2 = .ok () ∧
    session_exists "a" (kill_session "a" ⟨[("a", ()), ("b", ())], [("a", ()), ("b", ())],
        [("a", true), ("b", true)]⟩).1 = false ∧
    alLookup "b" (kill_session "a" ⟨[("a", ()), ("b", ())], [("a", ()), ("b", ())],
        [("a", true), ("b", true)]⟩).1.sessions = alLookup "b"
        ([("a", ()), ("b", ())] : List (String × Unit)) := by
  have h := kill_session_ok_idempotent
    ⟨[("a", ()), ("b", ())], [("a", ()), ("b", ())], [("a", true), ("b", true)]⟩ "a"
  exact ⟨h.1, h.2.1, (h.2.2.2.2 "b" (by decide)).1⟩

/-- Claim C3: along every observed trace of one session's reader loop,
the exit event is emitted exactly once if the loop observes EOF, or a
read error while still flagged running, and zero times otherwise (so
never twice); and `kill_session` itself emits no event at all. -/
theorem pty_exit_emitted_exactly_once_and_kill_silent (id : String) (tr : List ReadIter)
    (st : RegState) :
    exitCount id (read_loop id tr) = (if reachesTermination tr then 1 else 0) ∧
    (kill_session id st).2.1 = [] := by
  refine ⟨?_, rfl⟩
  induction tr with
  | nil => simp [read_loop, reachesTermination, exitCount]
  | cons it rest ih =>
    by_cases hf : it.flagAtCheck
    · cases hoc : it.outcome with
      | ok bytes =>
        cases bytes with
        | nil => simp [read_loop, reachesTermination, hf, hoc, exitCount]
        | cons b bs =>
          simp only [read_loop, reachesTermination, hf, hoc, if_true, Bool.true_and]
          simpa [exitCount] using ih
      | error u =>
        cases u
        by_cases he : it.flagAtErr <;>
          simp [read_loop, reachesTermination, hf, hoc, he, exitCount]
    · simp [read_loop, reachesTermination, hf, exitCount]

/-! ## Claim theorems: workspace store error paths -/

theorem overProject_fst_of_error {β : Type} (pid : String)
    (f : WorkspaceProject → Except String (WorkspaceProject × β)) (d : WorkspaceData)
    (e : String) (h : (overProject pid f d).2 = .error e) : (overProject pid f d).1 = d := by
  cases hap : applyFirst (fun pr => pr.id == pid) f d.projects with
  | none => simp [overProject, hap]
  | some r =>
    cases r with
    | error e2 => simp [overProject, hap]
    | ok s => simp [overProject, hap] at h

/-- Claim C6: every workspace-store mutating operation that returns an
error for a missing project, feature or panel id leaves the persisted
document unchanged (no save happens before the error return). -/
theorem notfound_error_leaves_document_unchanged (d : WorkspaceData)
    (pid fid panel_id idv name newId : String) (status : FeatureStatus)
    (panel : PanelState) (now : Nat) (description : Option String) (e : String) :
    ((remove_project idv d).2 = .error e → (remove_project idv d).1 = d) ∧
    ((set_active_project idv d).2 = .error e → (set_active_project idv d).1 = d) ∧
    ((create_feature newId now pid name description d).2 = .error e →
      (create_feature newId now pid name description d).1 = d) ∧
    ((rename_feature fid name d).2 = .error e → (rename_feature fid name d).1 = d) ∧
    ((update_feature_status pid fid status d).2 = .error e →
      (update_feature_status pid fid status d).1 = d) ∧
    ((delete_feature pid fid d).2 = .error e → (delete_feature pid fid d).1 = d) ∧
    ((set_active_feature pid fid d).2 = .error e → (set_active_feature pid fid d).1 = d) ∧
    ((add_panel_to_feature pid fid panel d).2 = .error e →
      (add_panel_to_feature pid fid panel d).1 = d) ∧
    ((remove_panel_from_feature pid fid panel_id d).2 = .error e →
      (remove_panel_from_feature pid fid panel_id d).1 = d) ∧
    ((toggle_panel_shared pid panel_id d).2 = .error e →
      (toggle_panel_shared pid panel_id d).1 = d) := by
  refine ⟨?_, ?_, ?_, ?_, ?_, ?_, ?_, ?_, ?_, ?_⟩
  · intro h
    cases hex : extractFirst (fun p => p.id == idv) d.projects with
    | none => simp [remove_project, hex]
    | some r => simp [remove_project, hex] at h
  · intro h
    by_cases ha : d.projects.any (fun p => p.id == idv)
    · simp [set_active_project, ha] at h
    · simp [set_active_project, ha]
  · exact overProject_fst_of_error pid _ d e
  · intro h
    cases hr : renameInProjects fid name d.projects with
    | none => simp [rename_feature, hr]
    | some ps => simp [rename_feature, hr] at h
  · exact overProject_fst_of_error pid _ d e
  · exact overProject_fst_of_error pid _ d e
  · exact overProject_fst_of_error pid _ d e
  · exact overProject_fst_of_error pid _ d e
  · exact overProject_fst_of_error pid _ d e
  · exact overProject_fst_of_error pid _ d e

/-- Witness for C6: on the empty workspace every operation errors with a
not-found message and leaves the document untouched. -/
theorem notfound_error_leaves_document_unchanged_witness :
    (remove_project "x" ⟨[], none⟩).1 = ⟨[], none⟩ ∧
    (set_active_project "x" ⟨[], none⟩).1 = ⟨[], none⟩ ∧
    (create_feature "n" 0 "p" "feat" none ⟨[], none⟩).1 = ⟨[], none⟩ ∧
    (rename_feature "f" "feat" ⟨[], none⟩).1 = ⟨[], none⟩ ∧
    (update_feature_status "p" "f" .pending ⟨[], none⟩).1 = ⟨[], none⟩ ∧
    (delete_feature "p" "f" ⟨[], none⟩).1 = ⟨[], none⟩ ∧
    (set_active_feature "p" "f" ⟨[], none⟩).1 = ⟨[], none⟩ ∧
    (add_panel_to_feature "p" "f" ⟨"pn", [], "", false, "/w"⟩ ⟨[], none⟩).1 = ⟨[], none⟩ ∧
    (remove_panel_from_feature "p" "f" "pn" ⟨[], none⟩).1 = ⟨[], none⟩ ∧
    (toggle_panel_shared "p" "pn" ⟨[], none⟩).1 = ⟨[], none⟩ := by
  have hx := fun e => notfound_error_leaves_document_unchanged ⟨[], none⟩
    "p" "f" "pn" "x" "feat" "n" .pending ⟨"pn", [], "", false, "/w"⟩ 0 none e
  exact ⟨(hx "Project 'x' not found").1 rfl,
    (hx "Project 'x' not found").2.1 rfl,
    (hx "Project 'p' not found").2.2.1 rfl,
    (hx "Feature 'f' not found").2.2.2.1 rfl,
    (hx "Project 'p' not found").2.2.2.2.1 rfl,
    (hx "Project 'p' not found").2.2.2.2.2.1 rfl,
    (hx "Project 'p' not found").2.2.2.2.2.2.1 rfl,
    (hx "Project 'p' not found").2.2.2.2.2.2.2.1 rfl,
    (hx "Project 'p' not found").2.2.2.2.2.2.2.2.1 rfl,
    (hx "Project 'p' not found").2.2.2.2.2.2.2.2.2 rfl⟩

/-! ## Lemmas about `applyFirst` and `modifyFirst` -/

theorem applyFirst_ok_self (p : α → Bool) (f : α → Except String (α × β)) (xs : List α)
    (x : α) (b : β) (h : xs.find? p = some x) (hf : f x = .ok (x, b)) :
    applyFirst p f xs = some (.ok (xs, b)) := by
  induction xs with
  | nil => simp at h
  | cons y ys ih =>
    by_cases hp : p y
    · rw [List.find?_cons_of_pos ys hp] at h
      injection h with h
      subst h
      simp [applyFirst, hp, hf]
    · rw [List.find?_cons_of_neg ys hp] at h
      simp [applyFirst, hp, ih h, Except.map]

theorem applyFirst_snd_ok (p : α → Bool) (f : α → Except String (α × β)) (xs : List α)
    (x x2 : α) (b : β) (h : xs.find? p = some x) (hf : f x = .ok (x2, b)) :
    ∃ ys, applyFirst p f xs = some (.ok (ys, b)) := by
  induction xs with
  | nil => simp at h
  | cons y ys ih =>
    by_cases hp : p y
    · rw [List.find?_cons_of_pos ys hp] at h
      injection h with h
      subst h
      exact ⟨x2 :: ys, by simp [applyFirst, hp, hf]⟩
    · rw [List.find?_cons_of_neg ys hp] at h
      obtain ⟨zs, hz⟩ := ih h
      exact ⟨y :: zs, by simp [applyFirst, hp, hz, Except.map]⟩

theorem modifyFirst_of_find? (p : α → Bool) (g : α → α) (xs : List α) (x : α)
    (h : xs.find? p = some x) : ∃ ys, modifyFirst p g xs = some ys := by
  induction xs with
  | nil => simp at h
  | cons y ys ih =>
    by_cases hp : p y
    · exact ⟨g y :: ys, by simp [modifyFirst, hp]⟩
    · rw [List.find?_cons_of_neg ys hp] at h
      obtain ⟨zs, hz⟩ := ih h
      exact ⟨y :: zs, by simp [modifyFirst, hp, hz]⟩

theorem modifyFirst_self_of_find? (p : α → Bool) (g : α → α) (xs : List α) (x : α)
    (h : xs.find? p = some x) (hg : g x = x) : modifyFirst p g xs = some xs := by
  induction xs with
  | nil => simp at h
  | cons y ys ih =>
    by_cases hp : p y
    · rw [List.find?_cons_of_pos ys hp] at h
      injection h with h
      subst h
      simp [modifyFirst, hp, hg]
    · rw [List.find?_cons_of_neg ys hp] at h
      simp [modifyFirst, hp, ih h]

/-! ## Claim theorems: delete_feature and remove_panel_from_feature -/

/-- Claim C7: `delete_feature` (whose per-project body is
`delete_featureP`) retargets `active_feature_id` to the first remaining
feature — or to none when no feature remains — exactly when the deleted
feature was active, and leaves it unchanged otherwise. -/
theorem delete_feature_retargets_active_feature (pid fid : String) (d : WorkspaceData)
    (proj proj2 : WorkspaceProject) :
    (delete_feature pid fid d = overProject pid (delete_featureP fid) d) ∧
    (delete_featureP fid proj = .ok (proj2, ()) →
      ((proj.active_feature_id = some fid →
          proj2.active_feature_id = (proj2.features.head?).map (fun f => f.id)) ∧
       (proj.active_feature_id ≠ some fid →
          proj2.active_feature_id = proj.active_feature_id))) := by
  refine ⟨rfl, ?_⟩
  intro h
  cases hex : extractFirst (fun f => f.id == fid) proj.features with
  | none => simp [delete_featureP, hex] at h
  | some r =>
    simp [delete_featureP, hex] at h
    constructor
    · intro ha
      rw [← h]
      simp [ha]
    · intro ha
      rw [← h]
      simp [ha]

/-- Witness for C7: deleting the active feature of a two-feature project
reassigns the active feature to the remaining one. -/
theorem delete_feature_retargets_active_feature_witness :
    delete_featureP "f1" (mkProject "pr" [mkFeature "f1" [], mkFeature "f2" []] [] (some "f1"))
      = .ok (mkProject "pr" [mkFeature "f2" []] [] (some "f2"), ()) ∧
    (mkProject "pr" [mkFeature "f2" []] [] (some "f2")).active_feature_id = some "f2" := by
  have h := (delete_feature_retargets_active_feature "pr" "f1" ⟨[], none⟩
    (mkProject "pr" [mkFeature "f1" [], mkFeature "f2" []] [] (some "f1"))
    (mkProject "pr" [mkFeature "f2" []] [] (some "f2"))).2 rfl
  exact ⟨rfl, by rw [h.1 rfl]; rfl⟩

/-- Claim C10: when the project and feature exist,
`remove_panel_from_feature` returns ok whether or not any panel carries
the given panel id (no panel-level not-found error exists), and when no
panel in that feature matches, the whole persisted document is unchanged. -/
theorem remove_panel_from_feature_ok_without_panel (d : WorkspaceData)
    (pid fid panel_id : String) (proj : WorkspaceProject) (feat : Feature)
    (hp : d.projects.find? (fun pr => pr.id == pid) = some proj)
    (hf : proj.features.find? (fun f => f.id == fid) = some feat) :
    (remove_panel_from_feature pid fid panel_id d).2 = .ok () ∧
    ((∀ q ∈ feat.panels, ¬ q.id = panel_id) →
      remove_panel_from_feature pid fid panel_id d = (d, .ok ())) := by
  constructor
  · obtain ⟨fs, hfs⟩ := modifyFirst_of_find?
      (fun f => f.id == fid)
      (fun f => { f with panels := f.panels.filter (fun p => !(p.id == panel_id)) })
      proj.features feat hf
    have hP : remove_panel_from_featureP fid panel_id proj
        = .ok ({ proj with features := fs }, ()) := by
      simp [remove_panel_from_featureP, hfs]
    obtain ⟨ys, hys⟩ := applyFirst_snd_ok (fun pr => pr.id == pid)
      (remove_panel_from_featureP fid panel_id) d.projects proj _ () hp hP
    simp [remove_panel_from_feature, overProject, hys]
  · intro hnone
    have hfilter : feat.panels.filter (fun p => !(p.id == panel_id)) = feat.panels :=
      List.filter_eq_self.mpr (fun q hq => by simp [hnone q hq])
    have hP : remove_panel_from_featureP fid panel_id proj = .ok (proj, ()) := by
      have hm := modifyFirst_self_of_find?
        (fun f => f.id == fid)
        (fun f => { f with panels := f.panels.filter (fun p => !(p.id == panel_id)) })
        proj.features feat hf
        (by show { feat with
              panels := feat.panels.filter (fun p => !(p.id == panel_id)) } = feat
            rw [hfilter])
      simp [remove_panel_from_featureP, hm]
    have ha := applyFirst_ok_self (fun pr => pr.id == pid)
      (remove_panel_from_featureP fid panel_id) d.projects proj () hp hP
    simp [remove_panel_from_feature, overProject, ha]

/-- Witness for C10 at a project/feature pair holding no matching panel. -/
theorem remove_panel_from_feature_ok_without_panel_witness :
    (remove_panel_from_feature "pr" "f1" "nope"
      ⟨[mkProject "pr" [mkFeature "f1" [mkPanel "p1" false]] [] (some "f1")], some "pr"⟩).2
      = .ok () ∧
    remove_panel_from_feature "pr" "f1" "nope"
      ⟨[mkProject "pr" [mkFeature "f1" [mkPanel "p1" false]] [] (some "f1")], some "pr"⟩
      = (⟨[mkProject "pr" [mkFeature "f1" [mkPanel "p1" false]] [] (some "f1")], some "pr"⟩,
         .ok ()) := by
  have h := remove_panel_from_feature_ok_without_panel
    ⟨[mkProject "pr" [mkFeature "f1" [mkPanel "p1" false]] [] (some "f1")], some "pr"⟩
    "pr" "f1" "nope"
    (mkProject "pr" [mkFeature "f1" [mkPanel "p1" false]] [] (some "f1"))
    (mkFeature "f1" [mkPanel "p1" false]) rfl rfl
  exact ⟨h.1, h.2 (by decide)⟩

/-! ## Claim theorems: add_project and toggle_panel_shared -/

/-- Claim C8: starting from a workspace with no project at `path`, adding
the same path twice makes the second call fail with the "already exists"
error, leave the document unchanged, and the list holds exactly one
project with that path. -/
theorem add_project_duplicate_rejected (d : WorkspaceData) (path id1 id2 : String)
    (t1 t2 : Nat) (h : ∀ p ∈ d.projects, ¬ p.path = path) :
    (add_project id2 t2 path (add_project id1 t1 path d).1).2
      = .error s!"Project '{path}' already exists" ∧
    (add_project id2 t2 path (add_project id1 t1 path d).1).1 = (add_project id1 t1 path d).1 ∧
    ((add_project id2 t2 path (add_project id1 t1 path d).1).1.projects.filter
      (fun p => p.path == path)).length = 1 := by
  have hnotex : ¬ ∃ x ∈ d.projects, x.path = path := by
    rintro ⟨x, hx, he⟩
    exact h x hx he
  have e1 : add_project id1 t1 path d
      = (⟨d.projects ++ [⟨id1, (fileName path).getD "Unknown", path, none, [], [], none, none, t1⟩],
          if d.active_project_id.isNone then some id1 else d.active_project_id⟩,
         .ok ⟨id1, (fileName path).getD "Unknown", path, none, [], [], none, none, t1⟩) := by
    simp [add_project, hnotex]
  have hex2 : ∃ x ∈ d.projects
      ++ [(⟨id1, (fileName path).getD "Unknown", path, none, [], [], none, none, t1⟩ :
            WorkspaceProject)], x.path = path :=
    ⟨⟨id1, (fileName path).getD "Unknown", path, none, [], [], none, none, t1⟩, by simp, rfl⟩
  have hnil : d.projects.filter (fun p => p.path == path) = [] := by
    rw [List.filter_eq_nil]
    intro p hp
    simp [h p hp]
  refine ⟨?_, ?_, ?_⟩
  · rw [e1]
    simp [add_project, hex2]
  · rw [e1]
    simp [add_project, hex2]
  · rw [e1]
    simp only [add_project]
    rw [if_pos (by simpa using hex2)]
    simp only [List.filter_append, hnil]
    simp

/-- Witness for C8 on the empty workspace. -/
theorem add_project_duplicate_rejected_witness :
    (add_project "u2" 1 "/a/b/proj" (add_project "u1" 0 "/a/b/proj" ⟨[], none⟩).1).2
      = .error "Project '/a/b/proj' already exists" ∧
    ((add_project "u2" 1 "/a/b/proj" (add_project "u1" 0 "/a/b/proj" ⟨[], none⟩).1).1.projects.filter
      (fun p => p.path == "/a/b/proj")).length = 1 := by
  have h := add_project_duplicate_rejected ⟨[], none⟩ "/a/b/proj" "u1" "u2" 0 1
    (by intro p hp; simp at hp)
  exact ⟨h.1, h.2.2⟩

/-- Claim C1 (code bug): with the panel in the shared pool and no active
feature, `toggle_panel_shared` succeeds with `Ok(false)` yet the panel is
gone from every container — the total panel count drops from 1 to 0. -/
theorem toggle_panel_shared_drops_panel_total_count :
    (toggle_panel_shared "pr" "p1"
      ⟨[mkProject "pr" [] [mkPanel "p1" true] none], some "pr"⟩).2 = .ok false ∧
    projPanelCount (mkProject "pr" [] [mkPanel "p1" true] none) = 1 ∧
    ((toggle_panel_shared "pr" "p1"
      ⟨[mkProject "pr" [] [mkPanel "p1" true] none], some "pr"⟩).1.projects.map projPanelCount)
      = [0] :=
  ⟨rfl, rfl, rfl⟩

/-- Claim C2 (counterexample): the panel starts in the non-active feature
`f2`; both toggles succeed, but the panel ends in the *active* feature
`f1`, not in the container it started in. -/
theorem toggle_twice_lands_in_active_feature_not_origin :
    (c2Doc.projects.map (fun pr => pr.features.map
      (fun f => (f.id, f.panels.map (fun p => p.id))))) = [[("f1", []), ("f2", ["p1"])]] ∧
    (toggle_panel_shared "pr" "p1" c2Doc).2 = .ok true ∧
    (toggle_panel_shared "pr" "p1" (toggle_panel_shared "pr" "p1" c2Doc).1).2 = .ok false ∧
    ((toggle_panel_shared "pr" "p1" (toggle_panel_shared "pr" "p1" c2Doc).1).1.projects.map
      (fun pr => pr.features.map (fun f => (f.id, f.panels.map (fun p => p.id)))))
      = [[("f1", ["p1"]), ("f2", [])]] :=
  ⟨rfl, rfl, rfl, rfl⟩

/-! ## Lemmas for the toggle inverse property -/

theorem extractFirst_none (p : α → Bool) (xs : List α) (h : ∀ y ∈ xs, p y = false) :
    extractFirst p xs = none := by
  induction xs with
  | nil => rfl
  | cons x xs ih =>
    simp [extractFirst, h x (List.mem_cons_self x xs),
      ih (fun y hy => h y (List.mem_cons_of_mem x hy))]

theorem extractFirst_pre (p : α → Bool) (pre : List α) (x : α) (post : List α)
    (hpre : ∀ y ∈ pre, p y = false) (hx : p x = true) :
    extractFirst p (pre ++ x :: post) = some (x, pre ++ post) := by
  induction pre with
  | nil => simp [extractFirst, hx]
  | cons y ys ih =>
    simp [extractFirst, hpre y (List.mem_cons_self y ys),
      ih (fun z hz => hpre z (List.mem_cons_of_mem y hz))]

theorem modifyFirst_pre (p : α → Bool) (g : α → α) (pre : List α) (x : α) (post : List α)
    (hpre : ∀ y ∈ pre, p y = false) (hx : p x = true) :
    modifyFirst p g (pre ++ x :: post) = some (pre ++ g x :: post) := by
  induction pre with
  | nil => simp [modifyFirst, hx]
  | cons y ys ih =>
    simp [modifyFirst, hpre y (List.mem_cons_self y ys),
      ih (fun z hz => hpre z (List.mem_cons_of_mem y hz))]

theorem togglePanelInFeatures_pre (panel_id : String) (fpre : List Feature) (F : Feature)
    (fpost : List Feature) (pan : PanelState) (ppre ppost : List PanelState)
    (hfpre : ∀ g ∈ fpre, ∀ q ∈ g.panels, (q.id == panel_id) = false)
    (hsplit : F.panels = ppre ++ pan :: ppost)
    (hppre : ∀ q ∈ ppre, (q.id == panel_id) = false)
    (hpan : (pan.id == panel_id) = true) :
    togglePanelInFeatures panel_id (fpre ++ F :: fpost)
      = some (fpre ++ { F with panels := ppre ++ ppost } :: fpost,
              { pan with is_shared := true }) := by
  induction fpre with
  | nil =>
    have he : extractFirst (fun p => p.id == panel_id) F.panels = some (pan, ppre ++ ppost) := by
      rw [hsplit]
      exact extractFirst_pre _ _ _ _ hppre hpan
    simp [togglePanelInFeatures, he]
  | cons g gs ih =>
    have he : extractFirst (fun p => p.id == panel_id) g.panels = none :=
      extractFirst_none _ _ (hfpre g (List.mem_cons_self g gs))
    simp [togglePanelInFeatures, he,
      ih (fun g2 hg2 => hfpre g2 (List.mem_cons_of_mem g hg2))]

theorem overProject_singleton {β : Type} (f : WorkspaceProject → Except String (WorkspaceProject × β))
    (proj : WorkspaceProject) (apid : Option String) :
    overProject proj.id f ⟨[proj], apid⟩
      = (match f proj with
         | .ok (p2, b) => (⟨[p2], apid⟩, .ok b)
         | .error e => (⟨[proj], apid⟩, .error e)) := by
  cases hf : f proj with
  | ok s =>
    cases s with
    | mk p2 b => simp [overProject, applyFirst, hf]
  | error e => simp [overProject, applyFirst, hf]

/-- Claim C2 (amended): if the project's `active_feature_id` names a
feature `F` present in its feature list, the toggled panel id occurs on
exactly one panel `pan`, and `pan` sits either in the shared pool with
`is_shared` true (case A) or in the active feature's panel list with
`is_shared` false (case B), then toggling twice returns the panel — the
very same record, original `is_shared` included — to the container it
started in, leaving everything else unchanged.  (The unamended claim
fails when the panel starts in a non-active feature: the second toggle
moves it into the *active* feature.) -/
theorem toggle_panel_shared_twice_restores_panel (proj : WorkspaceProject)
    (apid : Option String) (panel_id afid : String) (F : Feature)
    (fpre fpost : List Feature) (pan : PanelState)
    (hactive : proj.active_feature_id = some afid)
    (hfeat : proj.features = fpre ++ F :: fpost)
    (hfpre : ∀ g ∈ fpre, ¬ g.id = afid)
    (hFid : F.id = afid) :
    (∀ spre spost, proj.shared_panels = spre ++ pan :: spost →
      pan.id = panel_id → pan.is_shared = true →
      (∀ q ∈ spre ++ spost, ¬ q.id = panel_id) →
      (∀ g ∈ proj.features, ∀ q ∈ g.panels, ¬ q.id = panel_id) →
      (toggle_panel_shared proj.id panel_id ⟨[proj], apid⟩).2 = .ok false ∧
      toggle_panel_shared proj.id panel_id
          (toggle_panel_shared proj.id panel_id ⟨[proj], apid⟩).1
        = (⟨[{ proj with shared_panels := (spre ++ spost) ++ [pan] }], apid⟩, .ok true)) ∧
    (∀ ppre ppost, F.panels = ppre ++ pan :: ppost →
      pan.id = panel_id → pan.is_shared = false →
      (∀ q ∈ ppre ++ ppost, ¬ q.id = panel_id) →
      (∀ g ∈ fpre ++ fpost, ∀ q ∈ g.panels, ¬ q.id = panel_id) →
      (∀ q ∈ proj.shared_panels, ¬ q.id = panel_id) →
      (toggle_panel_shared proj.id panel_id ⟨[proj], apid⟩).2 = .ok true ∧
      toggle_panel_shared proj.id panel_id
          (toggle_panel_shared proj.id panel_id ⟨[proj], apid⟩).1
        = (⟨[{ proj with
               features := fpre ++ { F with panels := (ppre ++ ppost) ++ [pan] } :: fpost }],
            apid⟩, .ok false)) := by
  have hFb : (F.id == afid) = true := beq_iff_eq.mpr hFid
  have hfpreb : ∀ g ∈ fpre, (g.id == afid) = false :=
    fun g hg => beq_eq_false_iff_ne.mpr (hfpre g hg)
  constructor
  · -- Case A: panel starts in the shared pool
    intro spre spost hsh hpid hpshared hclean hfclean
    have hpanb : (pan.id == panel_id) = true := beq_iff_eq.mpr hpid
    have he1 : extractFirst (fun p => p.id == panel_id) proj.shared_panels
        = some (pan, spre ++ spost) := by
      rw [hsh]
      exact extractFirst_pre _ _ _ _
        (fun q hq => beq_eq_false_iff_ne.mpr (hclean q (List.mem_append_left _ hq))) hpanb
    have hm1 : modifyFirst (fun f => f.id == afid)
        (fun f => { f with panels := f.panels ++ [{ pan with is_shared := false }] })
        proj.features
        = some (fpre ++ { F with panels := F.panels ++ [{ pan with is_shared := false }] }
            :: fpost) := by
      rw [hfeat]
      exact modifyFirst_pre _ _ _ _ _ hfpreb hFb
    have hP1 : toggle_panel_sharedP panel_id proj
        = .ok ({ proj with
                 shared_panels := spre ++ spost,
                 features := fpre ++
                   { F with panels := F.panels ++ [{ pan with is_shared := false }] }
                   :: fpost }, false) := by
      simp [toggle_panel_sharedP, he1, hactive, hm1]
    have ht1 : toggle_panel_shared proj.id panel_id ⟨[proj], apid⟩
        = (⟨[{ proj with
               shared_panels := spre ++ spost,
               features := fpre ++
                 { F with panels := F.panels ++ [{ pan with is_shared := false }] }
                 :: fpost }], apid⟩, .ok false) := by
      have h0 := overProject_singleton (toggle_panel_sharedP panel_id) proj apid
      rw [hP1] at h0
      exact h0
    refine ⟨by rw [ht1], ?_⟩
    have he2 : extractFirst (fun p => p.id == panel_id) (spre ++ spost) = none :=
      extractFirst_none _ _ (fun q hq => beq_eq_false_iff_ne.mpr (hclean q hq))
    have hFmem : F ∈ proj.features := by
      rw [hfeat]
      exact List.mem_append_right _ (List.mem_cons_self F fpost)
    have ht : togglePanelInFeatures panel_id
        (fpre ++ { F with panels := F.panels ++ [{ pan with is_shared := false }] } :: fpost)
        = some (fpre ++
            { F with panels := F.panels ++ [] } :: fpost,
            { pan with is_shared := true }) :=
      togglePanelInFeatures_pre panel_id fpre _ fpost
        { pan with is_shared := false } F.panels []
        (fun g hg q hq => beq_eq_false_iff_ne.mpr
          (hfclean g (hfeat ▸ List.mem_append_left _ hg) q hq))
        rfl
        (fun q hq => beq_eq_false_iff_ne.mpr (hfclean F hFmem q hq))
        hpanb
    have ht' : togglePanelInFeatures panel_id
        (fpre ++ { F with panels := F.panels ++ [{ pan with is_shared := false }] } :: fpost)
        = some (fpre ++ F :: fpost, pan) := by
      rw [ht]
      have e2 : ({ pan with is_shared := true } : PanelState) = pan := by
        rw [← hpshared]
      have e1 : ({ F with panels := F.panels ++ [] } : Feature) = F := by
        rw [List.append_nil]
      rw [e1, e2]
    have hP2 : toggle_panel_sharedP panel_id
        { proj with
          shared_panels := spre ++ spost,
          features := fpre ++
            { F with panels := F.panels ++ [{ pan with is_shared := false }] } :: fpost }
        = .ok ({ proj with
                 shared_panels := (spre ++ spost) ++ [pan],
                 features := fpre ++ F :: fpost }, true) := by
      simp [toggle_panel_sharedP, he2, ht']
    have ht2 := overProject_singleton (toggle_panel_sharedP panel_id)
      { proj with
        shared_panels := spre ++ spost,
        features := fpre ++
          { F with panels := F.panels ++ [{ pan with is_shared := false }] } :: fpost } apid
    rw [hP2] at ht2
    rw [ht1]
    rw [show (⟨[{ proj with shared_panels := (spre ++ spost) ++ [pan] }], apid⟩ : WorkspaceData)
        = ⟨[{ proj with
              shared_panels := (spre ++ spost) ++ [pan],
              features := fpre ++ F :: fpost }], apid⟩ from by rw [← hfeat]]
    exact ht2
  · -- Case B: panel starts in the active feature's panel list
    intro ppre ppost hsplit hpid hpunshared hpclean hgclean hsclean
    have hpanb : (pan.id == panel_id) = true := beq_iff_eq.mpr hpid
    have he1 : extractFirst (fun p => p.id == panel_id) proj.shared_panels = none :=
      extractFirst_none _ _ (fun q hq => beq_eq_false_iff_ne.mpr (hsclean q hq))
    have ht : togglePanelInFeatures panel_id proj.features
        = some (fpre ++ { F with panels := ppre ++ ppost } :: fpost,
                { pan with is_shared := true }) := by
      rw [hfeat]
      exact togglePanelInFeatures_pre panel_id fpre F fpost pan ppre ppost
        (fun g hg q hq => beq_eq_false_iff_ne.mpr
          (hgclean g (List.mem_append_left _ hg) q hq))
        hsplit
        (fun q hq => beq_eq_false_iff_ne.mpr (hpclean q (List.mem_append_left _ hq)))
        hpanb
    have hP1 : toggle_panel_sharedP panel_id proj
        = .ok ({ proj with
                 features := fpre ++ { F with panels := ppre ++ ppost } :: fpost,
                 shared_panels := proj.shared_panels ++ [{ pan with is_shared := true }] },
               true) := by
      simp [toggle_panel_sharedP, he1, ht]
    have ht1 : toggle_panel_shared proj.id panel_id ⟨[proj], apid⟩
        = (⟨[{ proj with
               features := fpre ++ { F with panels := ppre ++ ppost } :: fpost,
               shared_panels := proj.shared_panels ++ [{ pan with is_shared := true }] }],
            apid⟩, .ok true) := by
      have h0 := overProject_singleton (toggle_panel_sharedP panel_id) proj apid
      rw [hP1] at h0
      exact h0
    refine ⟨by rw [ht1], ?_⟩
    have he2 : extractFirst (fun p => p.id == panel_id)
        (proj.shared_panels ++ [{ pan with is_shared := true }])
        = some ({ pan with is_shared := true }, proj.shared_panels ++ []) :=
      extractFirst_pre _ _ _ _
        (fun q hq => beq_eq_false_iff_ne.mpr (hsclean q hq)) hpanb
    have epan : ({ pan with is_shared := false } : PanelState) = pan := by
      rw [← hpunshared]
    have hm2 : modifyFirst (fun f => f.id == afid)
        (fun f => { f with panels := f.panels ++ [pan] })
        (fpre ++ { F with panels := ppre ++ ppost } :: fpost)
        = some (fpre ++ { F with panels := (ppre ++ ppost) ++ [pan] } :: fpost) :=
      modifyFirst_pre _ _ _ _ _ hfpreb hFb
    have hP2 : toggle_panel_sharedP panel_id
        { proj with
          features := fpre ++ { F with panels := ppre ++ ppost } :: fpost,
          shared_panels := proj.shared_panels ++ [{ pan with is_shared := true }] }
        = .ok ({ proj with
                 features := fpre ++ { F with panels := (ppre ++ ppost) ++ [pan] } :: fpost,
                 shared_panels := proj.shared_panels }, false) := by
      simp only [toggle_panel_sharedP, he2, hactive, hm2, Option.getD_some, epan,
        List.append_nil]
    have ht2 := overProject_singleton (toggle_panel_sharedP panel_id)
      { proj with
        features := fpre ++ { F with panels := ppre ++ ppost } :: fpost,
        shared_panels := proj.shared_panels ++ [{ pan with is_shared := true }] } apid
    rw [hP2] at ht2
    rw [ht1]
    exact ht2

/-- Witness for the amended C2 in case A: a panel in the shared pool of a
project whose active feature exists comes back to the shared pool with
`is_shared` still true after two toggles. -/
theorem toggle_panel_shared_twice_restores_panel_witness :
    (toggle_panel_shared "pr" "p1"
      ⟨[mkProject "pr" [mkFeature "f1" []] [mkPanel "p1" true] (some "f1")], some "pr"⟩).2
      = .ok false ∧
    toggle_panel_shared "pr" "p1"
        (toggle_panel_shared "pr" "p1"
          ⟨[mkProject "pr" [mkFeature "f1" []] [mkPanel "p1" true] (some "f1")], some "pr"⟩).1
      = (⟨[{ mkProject "pr" [mkFeature "f1" []] [mkPanel "p1" true] (some "f1") with
             shared_panels := (([] ++ []) ++ [mkPanel "p1" true] : List PanelState) }],
          some "pr"⟩, .ok true) := by
  have h := (toggle_panel_shared_twice_restores_panel
    (mkProject "pr" [mkFeature "f1" []] [mkPanel "p1" true] (some "f1"))
    (some "pr") "p1" "f1" (mkFeature "f1" []) [] [] (mkPanel "p1" true)
    rfl rfl (by intro g hg; simp at hg) rfl).1 [] [] rfl rfl rfl
    (by intro q hq; simp at hq)
    (by
      intro g hg q hq
      simp [mkProject] at hg
      subst hg
      simp [mkFeature] at hq)
  exact h

/-! ## Claim theorem: serialization round trip -/

theorem fromJson_toJson_optStr (o : Option String) :
    fromJsonOptStr (some (toJsonOptStr o)) = some o := by
  cases o <;> rfl

theorem fromJson_toJson_optBool (o : Option Bool) :
    fromJsonOptBool (some (toJsonOptBool o)) = some o := by
  cases o <;> rfl

theorem fromJson_toJson_optNat (o : Option Nat) :
    fromJsonOptNat (some (toJsonOptNat o)) = some o := by
  cases o <;> rfl

theorem fromJson_toJson_status (s : FeatureStatus) :
    fromJsonStatus (some (toJsonStatus s)) = some s := by
  cases s <;> rfl

theorem fromJson_toJson_layout (n : LayoutNode) :
    fromJsonLayoutNode (toJsonLayoutNode n) = some n := by
  induction n with
  | panel pid => rfl
  | split dir f s ihf ihs => simp [toJsonLayoutNode, fromJsonLayoutNode, ihf, ihs]

theorem fromJsonOptLayout_some (n : LayoutNode) :
    fromJsonOptLayout (some (toJsonLayoutNode n))
      = (fromJsonLayoutNode (toJsonLayoutNode n)).map some := by
  cases n <;> rfl

theorem fromJson_toJson_optLayout (o : Option LayoutNode) :
    fromJsonOptLayout (some (toJsonOptLayout o)) = some o := by
  cases o with
  | none => rfl
  | some n =>
    show fromJsonOptLayout (some (toJsonLayoutNode n)) = some (some n)
    rw [fromJsonOptLayout_some, fromJson_toJson_layout]
    rfl

theorem mapMloop_roundtrip (dec : Json → Option α) (enc : α → Json)
    (h : ∀ x, dec (enc x) = some x) (xs : List α) (acc : List α) :
    List.mapM.loop dec (xs.map enc) acc = some (acc.reverse ++ xs) := by
  induction xs generalizing acc with
  | nil => simp [List.mapM.loop]
  | cons x xs ih => simp [List.mapM.loop, h, ih]

theorem mapM_roundtrip (dec : Json → Option α) (enc : α → Json)
    (h : ∀ x, dec (enc x) = some x) (xs : List α) :
    (xs.map enc).mapM dec = some xs := by
  simpa [List.mapM] using mapMloop_roundtrip dec enc h xs []

theorem fromJson_toJson_session (s : SessionState) :
    fromJsonSession (toJsonSession s) = some s := by
  simp [toJsonSession, fromJsonSession, lookupField, List.find?, fromJsonStr,
    fromJson_toJson_optStr]

theorem fromJson_toJson_panel (p : PanelState) :
    fromJsonPanel (toJsonPanel p) = some p := by
  simp [toJsonPanel, fromJsonPanel, lookupField, List.find?, fromJsonStr, fromJsonStrD,
    fromJsonBool, fromJsonListD, mapM_roundtrip fromJsonSession toJsonSession
      fromJson_toJson_session, mapMloop_roundtrip fromJsonSession toJsonSession
      fromJson_toJson_session]

theorem fromJson_toJson_feature (f : Feature) :
    fromJsonFeature (toJsonFeature f) = some f := by
  simp [toJsonFeature, fromJsonFeature, lookupField, List.find?, fromJsonStr, fromJsonNat,
    fromJsonNatD, fromJson_toJson_optStr, fromJson_toJson_status, fromJson_toJson_optBool,
    fromJson_toJson_optLayout, fromJsonList, mapM_roundtrip fromJsonPanel toJsonPanel
      fromJson_toJson_panel, mapMloop_roundtrip fromJsonPanel toJsonPanel
      fromJson_toJson_panel]

theorem fromJson_toJson_project (p : WorkspaceProject) :
    fromJsonProject (toJsonProject p) = some p := by
  simp [toJsonProject, fromJsonProject, lookupField, List.find?, fromJsonStr, fromJsonNat,
    fromJson_toJson_optStr, fromJson_toJson_optBool, fromJson_toJson_optNat, fromJsonList,
    fromJsonListD, mapM_roundtrip fromJsonFeature toJsonFeature fromJson_toJson_feature,
    mapM_roundtrip fromJsonPanel toJsonPanel fromJson_toJson_panel,
    mapMloop_roundtrip fromJsonFeature toJsonFeature fromJson_toJson_feature,
    mapMloop_roundtrip fromJsonPanel toJsonPanel fromJson_toJson_panel]

/-- Claim C9: deserializing the serialized form of any in-memory workspace
document gives back a structurally equal document — `load (save x) = x` at
the JSON value level on which `serde_json` operates. -/
theorem load_save_roundtrip (d : WorkspaceData) :
    fromJsonWorkspace (toJsonWorkspace d) = some d := by
  simp [toJsonWorkspace, fromJsonWorkspace, lookupField, List.find?, fromJson_toJson_optStr,
    fromJsonList, mapM_roundtrip fromJsonProject toJsonProject fromJson_toJson_project,
    mapMloop_roundtrip fromJsonProject toJsonProject fromJson_toJson_project]

end Lovcode
